import Mathlib

/-!
Shallow embedding of the Rokid Air / Max driver (`src/rokid.rs`) from
`ar-drivers-rs`, together with proofs checking the natural-language
specification against it.

Conventions of the embedding:
* `u8`/`u16`/`u64` fields are `Nat`; values originating from the wire are
  bytes and hence `< 256` where that matters.
* The three `f32` components of a sensor vector are never computed with by
  the driver, only copied; they are carried as a triple of raw bit
  patterns (`Vec3`).
* The raw 64-byte interrupt packet is represented at the level of the
  fields the three `bytemuck` views extract from it, tagged by its leading
  byte (`Packet`); any other leading byte is `Packet.unknown`.
* USB control transfers are represented by the request/value/index
  (/payload) tuples the driver hands to `rusb` (`ControlRead`,
  `ControlWrite`); `read_value`/`write_value` take `(request, index,
  value)` and forward them to rusb as `(request, value, index)`.
-/

namespace Rokid

/-- Raw bit patterns of the three `f32` components of a sensor vector.
The driver copies these values, it never computes with them. -/
abbrev Vec3 := Nat × Nat × Nat

/-- The `GlassesEvent` variants produced by the Rokid driver. -/
inductive GlassesEvent where
  | KeyPress (bit : Nat)
  | ProximityNear
  | ProximityFar
  | AccGyro (accelerometer : Vec3) (gyroscope : Vec3) (timestamp : Nat)
  | Magnetometer (magnetometer : Vec3) (timestamp : Nat)
  deriving DecidableEq, Repr

/-- A decoded 64-byte interrupt packet, at the level of the fields the
driver's `bytemuck` views read: leading byte 2 is `MiscPacket`, 4 is
`SensorPacket`, 17 is `CombinedPacket`, anything else is ignored. -/
inductive Packet where
  | misc (keys_pressed : Nat) (proxy_sensor : Nat)
  | sensor (sensor_type : Nat) (timestamp : Nat) (vector : Vec3)
  | combined (timestamp : Nat) (accelerometer : Vec3) (gyroscope : Vec3)
      (magnetometer : Vec3) (keys_pressed : Nat) (proxy_sensor : Nat)
  | unknown (tag : Nat)
  deriving DecidableEq, Repr

/-- The leading byte (`packet_data[0]`) that selects the packet layout. -/
def Packet.tag : Packet → Nat
  | .misc _ _ => 2
  | .sensor _ _ _ => 4
  | .combined _ _ _ _ _ _ => 17
  | .unknown t => t

/-- The mutable fusion fields of `RokidAir` (the `pending_events` queue is
passed separately, as the event list produced by each step). -/
structure FusionState where
  last_accelerometer : Option (Vec3 × Nat)
  last_gyroscope : Option (Vec3 × Nat)
  previous_key_states : Nat
  proxy_sensor_was_far : Bool
  deriving DecidableEq, Repr

/-- The fusion fields as initialized by `RokidAir::new_common`. -/
def initFusionState : FusionState :=
  { last_accelerometer := none
    last_gyroscope := none
    previous_key_states := 0
    proxy_sensor_was_far := false }

/-- Embeds `RokidAir::handle_key_press`: emit `KeyPress(bit)` for every bit of
`keys_pressed & !previous_key_states` in ascending order (bits 0..8), then
store `keys_pressed`. -/
def handle_key_press (st : FusionState) (keys_pressed : Nat) :
    FusionState × List GlassesEvent :=
  let new_presses := keys_pressed &&& (255 ^^^ st.previous_key_states)
  ({ st with previous_key_states := keys_pressed },
   (List.range 8).filterMap fun bit =>
     if new_presses &&& (1 <<< bit) ≠ 0 then some (GlassesEvent.KeyPress bit)
     else none)

/-- Embeds `RokidAir::handle_proxy_sensor`: emit a proximity event exactly when
the far/near reading changes, and store the new reading. -/
def handle_proxy_sensor (st : FusionState) (value : Nat) :
    FusionState × List GlassesEvent :=
  let proxy_sensor_is_far := value ≠ 0
  let send_proxy_event := proxy_sensor_is_far ≠ st.proxy_sensor_was_far
  ({ st with proxy_sensor_was_far := proxy_sensor_is_far },
   if send_proxy_event then
     [if proxy_sensor_is_far then GlassesEvent.ProximityFar
      else GlassesEvent.ProximityNear]
   else [])

/-- The `if let (Some(..), Some(..))` block closing the tag-4 arm of
`RokidAir::read_event`: when both pending slots hold samples with equal
timestamps, clear both and append one `AccGyro` event. -/
def pairCheck (r : FusionState × List GlassesEvent) :
    FusionState × List GlassesEvent :=
  match r.1.last_accelerometer, r.1.last_gyroscope with
  | some (accelerometer, acc_ts), some (gyroscope, gyro_ts) =>
      if acc_ts = gyro_ts then
        ({ r.1 with last_accelerometer := none, last_gyroscope := none },
         r.2 ++ [GlassesEvent.AccGyro accelerometer gyroscope acc_ts])
      else r
  | _, _ => r

/-- One iteration of the `match packet_data[0]` in `RokidAir::read_event`:
process a decoded packet, returning the updated fusion fields and the
events pushed onto `pending_events` (in push order). -/
def processPacket (st : FusionState) (p : Packet) :
    FusionState × List GlassesEvent :=
  match p with
  | .misc keys_pressed proxy_sensor =>
      let r1 := handle_key_press st keys_pressed
      let r2 := handle_proxy_sensor r1.1 proxy_sensor
      (r2.1, r1.2 ++ r2.2)
  | .sensor sensor_type timestamp vector =>
      pairCheck
        (match sensor_type with
        | 1 => ({ st with last_accelerometer := some (vector, timestamp) }, [])
        | 2 => ({ st with last_gyroscope := some (vector, timestamp) }, [])
        | 3 => (st, [GlassesEvent.Magnetometer vector timestamp])
        | _ => (st, []))
  | .combined timestamp accelerometer gyroscope magnetometer keys_pressed
      proxy_sensor =>
      let ts := timestamp / 1000
      let r1 := handle_key_press st keys_pressed
      let r2 := handle_proxy_sensor r1.1 proxy_sensor
      (r2.1,
       [GlassesEvent.AccGyro accelerometer gyroscope ts,
        GlassesEvent.Magnetometer magnetometer ts] ++ r1.2 ++ r2.2)
  | .unknown _ => (st, [])

/-- Embeds `RokidAir::read_event`, with the transport made explicit: `reads` is
the list of interrupt-read results still to come (each a packet or a
transport error), `st` the fusion fields and `queue` the `pending_events`
deque. Returns `none` when the supplied reads are exhausted while the
queue is still empty (the real loop would keep blocking), otherwise the
propagated transport error or the single popped event together with the
final state, the remaining queue and the unconsumed reads. -/
def read_event {ε : Type} :
    List (Except ε Packet) → FusionState → List GlassesEvent →
    Option (Except ε
      (GlassesEvent × FusionState × List GlassesEvent × List (Except ε Packet)))
  | reads, st, e :: q => some (Except.ok (e, st, q, reads))
  | [], _, [] => none
  | (Except.error err) :: _, _, [] => some (Except.error err)
  | (Except.ok p) :: more, st, [] =>
      let r := processPacket st p
      read_event more r.1 r.2

/-- Run `handle_key_press` over a sequence of key bitmasks, collecting all
emitted events in order (the key half of a stream of `MiscPacket`s or
`CombinedPacket`s). -/
def runKeys (st : FusionState) : List Nat → List GlassesEvent
  | [] => []
  | k :: ks =>
      (handle_key_press st k).2 ++ runKeys (handle_key_press st k).1 ks

/-- Modelled from the spec's words: the number of rising transitions of
bit `i` along a bitmask sequence, the previous mask starting at `prev`. -/
def specRisingCount (i : Nat) (prev : Nat) : List Nat → Nat
  | [] => 0
  | k :: ks =>
      (if k.testBit i && !prev.testBit i then 1 else 0) + specRisingCount i k ks

/-- Whether an event is a `KeyPress`. -/
def isKeyPressEvent : GlassesEvent → Bool
  | .KeyPress _ => true
  | _ => false

/-- Whether an event is an `AccGyro`. -/
def isAccGyroEvent : GlassesEvent → Bool
  | .AccGyro _ _ _ => true
  | _ => false

/-- Whether an event is a `Magnetometer`. -/
def isMagnetometerEvent : GlassesEvent → Bool
  | .Magnetometer _ _ => true
  | _ => false

/-- The bit index of a `KeyPress` event (0 otherwise). -/
def keyBit : GlassesEvent → Nat
  | .KeyPress bit => bit
  | _ => 0

/-! ## Control transfers -/

/-- The parameters of one `rusb` control read, in rusb slot order:
`read_control(_, request, value, index, ...)`.  The driver's
`read_value(request, index, value)` forwards them as
`read_control(request, value, index)`. -/
structure ControlRead where
  request : Nat
  value : Nat
  index : Nat
  deriving DecidableEq, Repr

/-- The parameters of one `rusb` control write, in rusb slot order, plus
the payload bytes.  `write_value(request, index, value, data)` forwards
them as `write_control(request, value, index, data)`. -/
structure ControlWrite where
  request : Nat
  value : Nat
  index : Nat
  payload : List Nat
  deriving DecidableEq, Repr

/-- The `DisplayMode` variants of the crate. -/
inductive DisplayMode where
  | SameOnBoth
  | HalfSBS
  | Stereo
  | HighRefreshRate
  | HighRefreshRateSBS
  deriving DecidableEq, Repr

/-- The outbound mode code computed by `RokidAir::set_display_mode`
(`HalfSBS` has none and yields `Error::Other`). -/
def displayModeCode : DisplayMode → Except String Nat
  | .SameOnBoth => Except.ok 0
  | .Stereo => Except.ok 1
  | .HighRefreshRate => Except.ok 3
  | .HighRefreshRateSBS => Except.ok 4
  | _ => Except.error "Display mode not supported"

/-- Embeds `RokidAir::set_display_mode`: the single control write it issues,
`write_control(0x1, display_mode, 0x1, &[0u8; 1])`. -/
def set_display_mode (display_mode : DisplayMode) :
    Except String ControlWrite :=
  (displayModeCode display_mode).map fun code =>
    { request := 0x1, value := code, index := 0x1, payload := [0] }

/-- Embeds `RokidAir::set_raw_display_mode`:
`write_value(0x01, 0x01, mode1, &[mode2])`. -/
def set_raw_display_mode (mode1 : Nat) (mode2 : Nat) : ControlWrite :=
  { request := 0x01, value := mode1, index := 0x01, payload := [mode2] }

/-- The control read issued by `RokidAir::get_brightness`:
`read_value(0x81, 0x02, 0x0)`. -/
def get_brightness_read : ControlRead :=
  { request := 0x81, value := 0x0, index := 0x02 }

/-- The control read issued by `RokidAir::get_volume`:
`read_value(0x81, 0x0a, 0x0)`. -/
def get_volume_read : ControlRead :=
  { request := 0x81, value := 0x0, index := 0x0a }

/-- The control read issued by `RokidAir::get_raw_display_mode`:
`read_value(0x81, 0x01, 0x0)`. -/
def get_raw_display_mode_read : ControlRead :=
  { request := 0x81, value := 0x0, index := 0x01 }

/-- The control read issued by the trait method
`RokidAir::get_display_mode`: `read_control(_, 0x81, 0x0, 0x1, ...)`. -/
def get_display_mode_read : ControlRead :=
  { request := 0x81, value := 0x0, index := 0x1 }

/-- Embeds `RokidAir::set_volume`: clamp to 0..=10, scale by 10, then
`write_value(0x01, 0x0a, volume * 10, &[0x00])`. -/
def set_volume (volume : Nat) : ControlWrite :=
  let volume := min (max volume 0) 10
  let volume := volume * 10
  { request := 0x01, value := volume, index := 0x0a, payload := [0x00] }

/-- Embeds `RokidAir::set_brightness`: clamp to 1..=6, map through the fixed
table, then `write_value(0x02, 0x02, brightness, &[0x00])`. -/
def set_brightness (brightness : Nat) : ControlWrite :=
  let brightness := min (max brightness 1) 6
  let brightness :=
    match brightness with
    | 1 => 10
    | 2 => 30
    | 3 => 45
    | 4 => 60
    | 5 => 80
    | _ => 100
  { request := 0x02, value := brightness, index := 0x02, payload := [0x00] }

/-- Modelled from the spec's words: the brightness lookup table
{1→10, 2→30, 3→45, 4→60, 5→80, 6→100}. -/
def specBrightnessTable : Nat → Nat
  | 1 => 10
  | 2 => 30
  | 3 => 45
  | 4 => 60
  | 5 => 80
  | 6 => 100
  | _ => 0

/-! ## Identity strings (`convert_byte_array`) -/

/-- Whether a byte is a UTF-8 continuation byte (`0x80..=0xBF`). -/
def utf8Cont (b : Nat) : Bool := 0x80 ≤ b && b < 0xC0

/-- UTF-8 decoding of a byte list into code points, exactly the validity
rules of Rust's `String::from_utf8` (rejects stray continuation bytes,
overlong encodings, surrogates and code points above `0x10FFFF`).  The
`fuel` argument only drives structural recursion; each decoded character
consumes at least one byte, so `fuel = length` suffices (see
`utf8DecodeFuel_congr`). -/
def utf8DecodeFuel : Nat → List Nat → Option (List Nat)
  | _, [] => some []
  | 0, _ :: _ => none
  | fuel + 1, b :: rest =>
      if b < 0x80 then
        (utf8DecodeFuel fuel rest).map (b :: ·)
      else if b < 0xC2 then none
      else if b < 0xE0 then
        match rest with
        | b1 :: rest2 =>
            if utf8Cont b1 then
              (utf8DecodeFuel fuel rest2).map
                (((b - 0xC0) * 0x40 + (b1 - 0x80)) :: ·)
            else none
        | [] => none
      else if b < 0xF0 then
        match rest with
        | b1 :: b2 :: rest3 =>
            if utf8Cont b1 && utf8Cont b2 then
              let cp := (b - 0xE0) * 0x1000 + (b1 - 0x80) * 0x40 + (b2 - 0x80)
              if 0x800 ≤ cp && !(0xD800 ≤ cp && cp < 0xE000) then
                (utf8DecodeFuel fuel rest3).map (cp :: ·)
              else none
            else none
        | _ => none
      else if b < 0xF5 then
        match rest with
        | b1 :: b2 :: b3 :: rest4 =>
            if utf8Cont b1 && utf8Cont b2 && utf8Cont b3 then
              let cp := (b - 0xF0) * 0x40000 + (b1 - 0x80) * 0x1000 +
                (b2 - 0x80) * 0x40 + (b3 - 0x80)
              if 0x10000 ≤ cp && cp < 0x110000 then
                (utf8DecodeFuel fuel rest4).map (cp :: ·)
              else none
            else none
        | _ => none
      else none

/-- The code points of a byte list under UTF-8, or `none` when the bytes
are not valid UTF-8 (the result of Rust's `String::from_utf8`). -/
def utf8DecodeCps (bs : List Nat) : Option (List Nat) :=
  utf8DecodeFuel bs.length bs

/-- Uppercase hexadecimal digit for `n < 16`. -/
def hexDigit (n : Nat) : Char :=
  if n < 10 then Char.ofNat (48 + n) else Char.ofNat (55 + n)

/-- Rust `format!("{:02X}", b)` for a byte `b`. -/
def hexByte (b : Nat) : String :=
  String.mk [hexDigit (b / 16), hexDigit (b % 16)]

/-- Embeds `convert_byte_array`: a 64-byte read result becomes the UTF-8 string
of the whole buffer when the bytes are valid UTF-8, a `", "`-joined
uppercase hex dump when not, and `"Unknown (<error>)"` when the read
failed. -/
def convert_byte_array (byte_array : Except String (List Nat)) : String :=
  match byte_array with
  | .ok bytes =>
      match utf8DecodeCps bytes with
      | some cps => String.mk (cps.map Char.ofNat)
      | none => String.intercalate ", " (bytes.map hexByte)
  | .error e => "Unknown (" ++ e ++ ")"

/-- Embeds `RokidAir::hw_version`, abstracted over the transport's read result. -/
def hw_version (r : Except String (List Nat)) : String := convert_byte_array r

/-- Embeds `RokidAir::pcba_version`, abstracted over the read result. -/
def pcba_version (r : Except String (List Nat)) : String := convert_byte_array r

/-- Embeds `RokidAir::optical_id`, abstracted over the read result. -/
def optical_id (r : Except String (List Nat)) : String := convert_byte_array r

/-- Embeds `RokidAir::type_id`, abstracted over the read result. -/
def type_id (r : Except String (List Nat)) : String := convert_byte_array r

/-- Embeds `RokidAir::serial_no`, abstracted over the read result. -/
def serial_no (r : Except String (List Nat)) : String := convert_byte_array r

/-- Embeds `RokidAir::fw_version`, abstracted over the read result. -/
def fw_version (r : Except String (List Nat)) : String := convert_byte_array r

/-- Embeds `RokidAir::seed`, abstracted over the read result. -/
def seed (r : Except String (List Nat)) : String := convert_byte_array r

/-- Modelled from the spec's words: reading the 64-byte buffer as a
NUL-terminated string (decode only the bytes before the first NUL). -/
def specNulTerminatedString (bytes : List Nat) : Option String :=
  (utf8DecodeCps (bytes.takeWhile (fun b => b ≠ 0))).map
    (fun cps => String.mk (cps.map Char.ofNat))

/-- A concrete identity-read result: the ASCII byte `A` followed by 63
NUL padding bytes (a typical NUL-terminated firmware string buffer). -/
def aThenNuls : List Nat := 65 :: List.replicate 63 0

/-- The split-packet pending slots never simultaneously hold an
accelerometer and a gyroscope sample with equal timestamps. -/
def pendingTimestampsDiffer (st : FusionState) : Prop :=
  ∀ a ta g tg, st.last_accelerometer = some (a, ta) →
    st.last_gyroscope = some (g, tg) → ta ≠ tg

/-! ## Helper lemmas -/

theorem filterMap_ite {α β : Type} (l : List α) (p : α → Prop) [DecidablePred p]
    (f : α → β) :
    (l.filterMap fun a => if p a then some (f a) else none) =
      (l.filter fun a => decide (p a)).map f := by
  induction l with
  | nil => rfl
  | cons a l ih =>
      by_cases h : p a <;> simp [List.filterMap_cons, List.filter_cons, h, ih]

theorem decide_and_one_shiftLeft (n bit : Nat) :
    decide (n &&& (1 <<< bit) ≠ 0) = n.testBit bit := by
  rw [Nat.shiftLeft_eq, one_mul, Nat.and_two_pow]
  cases h : n.testBit bit
  · simp
  · simp [(Nat.two_pow_pos bit).ne']

theorem handle_key_press_events (st : FusionState) (keys : Nat) :
    (handle_key_press st keys).2 =
      ((List.range 8).filter
          (fun bit => (keys &&& (255 ^^^ st.previous_key_states)).testBit bit)).map
        GlassesEvent.KeyPress := by
  show ((List.range 8).filterMap fun bit =>
      if (keys &&& (255 ^^^ st.previous_key_states)) &&& (1 <<< bit) ≠ 0 then
        some (GlassesEvent.KeyPress bit) else none) = _
  rw [filterMap_ite]
  congr 1
  exact List.filter_congr fun a _ => decide_and_one_shiftLeft _ a

theorem mask_testBit (keys prev i : Nat) (h : i < 8) :
    (keys &&& (255 ^^^ prev)).testBit i = (keys.testBit i && !prev.testBit i) := by
  rw [Nat.testBit_and, Nat.testBit_xor]
  have h255 : (255 : Nat).testBit i = true := by
    have h2 : (255 : Nat) = 2 ^ 8 - 1 := by norm_num
    rw [h2, Nat.testBit_two_pow_sub_one]
    simpa using h
  rw [h255]
  cases prev.testBit i <;> simp

theorem keyPress_injective : Function.Injective GlassesEvent.KeyPress := by
  intro a b h
  injection h

theorem count_filter_range (p : Nat → Bool) (n i : Nat) :
    ((List.range n).filter p).count i = if i < n ∧ p i then 1 else 0 := by
  by_cases h : i < n ∧ p i
  · rw [if_pos h]
    exact List.count_eq_one_of_mem ((List.nodup_range n).filter p)
      (List.mem_filter.mpr ⟨List.mem_range.mpr h.1, h.2⟩)
  · rw [if_neg h]
    refine List.count_eq_zero_of_not_mem fun hmem => ?_
    rcases List.mem_filter.mp hmem with ⟨h1, h2⟩
    exact h ⟨List.mem_range.mp h1, h2⟩

theorem handle_key_press_count (st : FusionState) (keys i : Nat) (h : i < 8) :
    (handle_key_press st keys).2.count (GlassesEvent.KeyPress i) =
      if keys.testBit i && !st.previous_key_states.testBit i then 1 else 0 := by
  rw [handle_key_press_events,
    List.count_map_of_injective _ _ keyPress_injective, count_filter_range,
    mask_testBit _ _ _ h]
  simp [h]

theorem runKeys_count (masks : List Nat) (st : FusionState) (i : Nat)
    (h : i < 8) :
    (runKeys st masks).count (GlassesEvent.KeyPress i) =
      specRisingCount i st.previous_key_states masks := by
  induction masks generalizing st with
  | nil => rfl
  | cons k ks ih =>
      rw [runKeys, List.count_append, handle_key_press_count st k i h, ih]
      show _ = specRisingCount i st.previous_key_states (k :: ks)
      rw [specRisingCount]
      show (if _ then 1 else 0) +
        specRisingCount i (handle_key_press st k).1.previous_key_states ks = _
      rw [show (handle_key_press st k).1.previous_key_states = k from rfl]

theorem handle_key_press_sorted (st : FusionState) (keys : Nat) :
    (handle_key_press st keys).2.Pairwise fun a b => keyBit a < keyBit b := by
  rw [handle_key_press_events]
  refine List.Pairwise.map _ (fun a b hab => ?_)
    ((List.pairwise_lt_range 8).filter _)
  simpa [keyBit] using hab

theorem handle_key_press_mem (st : FusionState) (keys i : Nat) :
    GlassesEvent.KeyPress i ∈ (handle_key_press st keys).2 ↔
      i < 8 ∧ keys.testBit i = true ∧
        st.previous_key_states.testBit i = false := by
  rw [handle_key_press_events]
  simp only [List.mem_map, List.mem_filter, List.mem_range,
    GlassesEvent.KeyPress.injEq]
  constructor
  · rintro ⟨a, ⟨ha8, hbit⟩, rfl⟩
    rw [mask_testBit _ _ _ ha8] at hbit
    simp only [Bool.and_eq_true, Bool.not_eq_true'] at hbit
    exact ⟨ha8, hbit.1, hbit.2⟩
  · rintro ⟨h8, hk, hp⟩
    refine ⟨i, ⟨h8, ?_⟩, rfl⟩
    rw [mask_testBit _ _ _ h8, hk, hp]
    rfl

theorem filter_map_keyPress (l : List Nat) (f : GlassesEvent → Bool)
    (h : ∀ b, f (GlassesEvent.KeyPress b) = false) :
    (l.map GlassesEvent.KeyPress).filter f = [] := by
  induction l with
  | nil => rfl
  | cons a l ih => simp [List.filter_cons, h, ih]

theorem filter_keyPress_self (l : List Nat) :
    (l.map GlassesEvent.KeyPress).filter isKeyPressEvent =
      l.map GlassesEvent.KeyPress := by
  induction l with
  | nil => rfl
  | cons a l ih => simp [List.filter_cons, isKeyPressEvent, ih]

theorem handle_proxy_sensor_filter (st : FusionState) (v : Nat)
    (f : GlassesEvent → Bool) (hf : f GlassesEvent.ProximityFar = false)
    (hn : f GlassesEvent.ProximityNear = false) :
    (handle_proxy_sensor st v).2.filter f = [] := by
  show (if _ then [if v ≠ 0 then GlassesEvent.ProximityFar
    else GlassesEvent.ProximityNear] else []).filter f = []
  split
  · split <;> simp [hf, hn]
  · rfl

theorem pairCheck_differ (r : FusionState × List GlassesEvent) :
    pendingTimestampsDiffer (pairCheck r).1 := by
  rcases r with ⟨⟨acc, gyro, pk, pf⟩, evs⟩
  rcases acc with _ | ⟨a, ta⟩
  · rcases gyro with _ | ⟨g, tg⟩ <;> exact fun a' ta' g' tg' ha hg => by cases ha
  · rcases gyro with _ | ⟨g, tg⟩
    · exact fun a' ta' g' tg' ha hg => by cases hg
    · show pendingTimestampsDiffer
        (if ta = tg then _ else (⟨⟨some (a, ta), some (g, tg), pk, pf⟩, evs⟩ :
          FusionState × List GlassesEvent)).1
      split
      · intro a' ta' g' tg' ha hg
        cases ha
      · rename_i hne
        intro a' ta' g' tg' ha hg
        simp only [Option.some.injEq, Prod.mk.injEq] at ha hg
        rcases ha with ⟨-, rfl⟩
        rcases hg with ⟨-, rfl⟩
        exact hne

theorem acc_then_gyro_pair (st : FusionState) (va vg : Vec3) (T : Nat)
    (hgyro : ∀ g tg, st.last_gyroscope = some (g, tg) → tg ≠ T) :
    (processPacket st (.sensor 1 T va)).2 = [] ∧
    (processPacket st (.sensor 1 T va)).1.last_accelerometer = some (va, T) ∧
    (processPacket (processPacket st (.sensor 1 T va)).1 (.sensor 2 T vg)).2 =
      [GlassesEvent.AccGyro va vg T] ∧
    (processPacket (processPacket st (.sensor 1 T va)).1
        (.sensor 2 T vg)).1.last_accelerometer = none ∧
    (processPacket (processPacket st (.sensor 1 T va)).1
        (.sensor 2 T vg)).1.last_gyroscope = none := by
  rcases st with ⟨acc, gyro, pk, pf⟩
  rcases gyro with _ | ⟨g, tg⟩
  · simp [processPacket, pairCheck]
  · have hne : tg ≠ T := hgyro g tg rfl
    simp [processPacket, pairCheck, hne, Ne.symm hne]

theorem gyro_then_acc_pair (st : FusionState) (va vg : Vec3) (T : Nat)
    (hacc : ∀ a ta, st.last_accelerometer = some (a, ta) → ta ≠ T) :
    (processPacket st (.sensor 2 T vg)).2 = [] ∧
    (processPacket st (.sensor 2 T vg)).1.last_gyroscope = some (vg, T) ∧
    (processPacket (processPacket st (.sensor 2 T vg)).1 (.sensor 1 T va)).2 =
      [GlassesEvent.AccGyro va vg T] ∧
    (processPacket (processPacket st (.sensor 2 T vg)).1
        (.sensor 1 T va)).1.last_accelerometer = none ∧
    (processPacket (processPacket st (.sensor 2 T vg)).1
        (.sensor 1 T va)).1.last_gyroscope = none := by
  rcases st with ⟨acc, gyro, pk, pf⟩
  rcases acc with _ | ⟨a, ta⟩
  · simp [processPacket, pairCheck]
  · have hne : ta ≠ T := hacc a ta rfl
    simp [processPacket, pairCheck, hne, Ne.symm hne]

theorem gyro_overwrite_mismatch (st : FusionState) (va vg : Vec3) (ta tg : Nat)
    (hacc : st.last_accelerometer = some (va, ta)) (hne : tg ≠ ta) :
    processPacket st (.sensor 2 tg vg) =
      ({ st with last_gyroscope := some (vg, tg) }, []) := by
  rcases st with ⟨acc, gyro, pk, pf⟩
  cases hacc
  simp [processPacket, pairCheck, Ne.symm hne]

theorem acc_overwrite_mismatch (st : FusionState) (va vg : Vec3) (ta tg : Nat)
    (hgyro : st.last_gyroscope = some (vg, tg)) (hne : ta ≠ tg) :
    processPacket st (.sensor 1 ta va) =
      ({ st with last_accelerometer := some (va, ta) }, []) := by
  rcases st with ⟨acc, gyro, pk, pf⟩
  cases hgyro
  simp [processPacket, pairCheck, hne]

theorem read_event_error_mem {ε : Type} (reads : List (Except ε Packet)) :
    ∀ (st : FusionState) (q : List GlassesEvent) (e : ε),
      read_event reads st q = some (Except.error e) → Except.error e ∈ reads := by
  induction reads with
  | nil =>
      intro st q e h
      cases q with
      | nil => cases h
      | cons a q => injection h with h1; cases h1
  | cons r rs ih =>
      intro st q e h
      cases r with
      | error err =>
          cases q with
          | cons a q => injection h with h1; cases h1
          | nil =>
              injection h with h1
              injection h1 with h2
              rw [← h2]
              exact List.mem_cons_self _ _
      | ok p =>
          cases q with
          | cons a q => injection h with h1; cases h1
          | nil => exact List.mem_cons_of_mem _ (ih _ _ _ h)

theorem processPacket_misc_keyfilter (st : FusionState) (k pr : Nat) :
    (processPacket st (.misc k pr)).2.filter isKeyPressEvent =
      (handle_key_press st k).2 := by
  show ((handle_key_press st k).2 ++
      (handle_proxy_sensor (handle_key_press st k).1 pr).2).filter
        isKeyPressEvent = _
  rw [List.filter_append, handle_proxy_sensor_filter _ _ _ rfl rfl,
    List.append_nil, handle_key_press_events, filter_keyPress_self,
    ← handle_key_press_events]

theorem processPacket_combined_keyfilter (st : FusionState) (ts : Nat)
    (a g m : Vec3) (k pr : Nat) :
    (processPacket st (.combined ts a g m k pr)).2.filter isKeyPressEvent =
      (handle_key_press st k).2 := by
  show (([GlassesEvent.AccGyro a g (ts / 1000),
      GlassesEvent.Magnetometer m (ts / 1000)] ++ (handle_key_press st k).2 ++
      (handle_proxy_sensor (handle_key_press st k).1 pr).2).filter
        isKeyPressEvent) = _
  rw [List.filter_append, List.filter_append,
    handle_proxy_sensor_filter _ _ _ rfl rfl, List.append_nil,
    show ([GlassesEvent.AccGyro a g (ts / 1000),
      GlassesEvent.Magnetometer m (ts / 1000)]).filter isKeyPressEvent =
      [] from rfl, List.nil_append, handle_key_press_events,
    filter_keyPress_self, ← handle_key_press_events]

/-! ## Claim theorems -/

/-- Claim C1: in the split-packet stream, an accelerometer sample at
timestamp `T` followed by a gyroscope sample at `T` (or symmetrically)
emits exactly one `AccGyro` event carrying `T` and the two stored vectors
and clears both pending slots in the same step; with differing pending
timestamps no `AccGyro` is emitted and the newer sample of each kind
overwrites the pending sample of that kind. -/
theorem accgyro_fusion_pairing :
    (∀ (st : FusionState) (va vg : Vec3) (T : Nat),
        (∀ g tg, st.last_gyroscope = some (g, tg) → tg ≠ T) →
        (processPacket st (.sensor 1 T va)).2 = [] ∧
        (processPacket st (.sensor 1 T va)).1.last_accelerometer =
          some (va, T) ∧
        (processPacket (processPacket st (.sensor 1 T va)).1
            (.sensor 2 T vg)).2 = [GlassesEvent.AccGyro va vg T] ∧
        (processPacket (processPacket st (.sensor 1 T va)).1
            (.sensor 2 T vg)).1.last_accelerometer = none ∧
        (processPacket (processPacket st (.sensor 1 T va)).1
            (.sensor 2 T vg)).1.last_gyroscope = none) ∧
    (∀ (st : FusionState) (va vg : Vec3) (T : Nat),
        (∀ a ta, st.last_accelerometer = some (a, ta) → ta ≠ T) →
        (processPacket st (.sensor 2 T vg)).2 = [] ∧
        (processPacket st (.sensor 2 T vg)).1.last_gyroscope =
          some (vg, T) ∧
        (processPacket (processPacket st (.sensor 2 T vg)).1
            (.sensor 1 T va)).2 = [GlassesEvent.AccGyro va vg T] ∧
        (processPacket (processPacket st (.sensor 2 T vg)).1
            (.sensor 1 T va)).1.last_accelerometer = none ∧
        (processPacket (processPacket st (.sensor 2 T vg)).1
            (.sensor 1 T va)).1.last_gyroscope = none) ∧
    (∀ (st : FusionState) (va vg : Vec3) (ta tg : Nat),
        st.last_accelerometer = some (va, ta) → tg ≠ ta →
        processPacket st (.sensor 2 tg vg) =
          ({ st with last_gyroscope := some (vg, tg) }, [])) ∧
    (∀ (st : FusionState) (va vg : Vec3) (ta tg : Nat),
        st.last_gyroscope = some (vg, tg) → ta ≠ tg →
        processPacket st (.sensor 1 ta va) =
          ({ st with last_accelerometer := some (va, ta) }, [])) :=
  ⟨acc_then_gyro_pair, gyro_then_acc_pair,
   fun st va vg ta tg hacc hne => gyro_overwrite_mismatch st va vg ta tg hacc hne,
   fun st va vg ta tg hgyro hne => acc_overwrite_mismatch st va vg ta tg hgyro hne⟩

/-- Witness for C1 at concrete inputs: an accelerometer sample at
timestamp 7 then a gyroscope sample at 7 from the initial state emit
exactly one `AccGyro` and clear both slots; a gyroscope sample at 9 with
an accelerometer pending at 7 emits nothing and overwrites the gyroscope
slot. -/
theorem accgyro_fusion_pairing_witness :
    ((processPacket initFusionState (.sensor 1 7 ((1, 2, 3) : Vec3))).2 = [] ∧
     (processPacket initFusionState
        (.sensor 1 7 ((1, 2, 3) : Vec3))).1.last_accelerometer =
       some ((1, 2, 3), 7) ∧
     (processPacket (processPacket initFusionState
          (.sensor 1 7 ((1, 2, 3) : Vec3))).1
        (.sensor 2 7 ((4, 5, 6) : Vec3))).2 =
       [GlassesEvent.AccGyro (1, 2, 3) (4, 5, 6) 7] ∧
     (processPacket (processPacket initFusionState
          (.sensor 1 7 ((1, 2, 3) : Vec3))).1
        (.sensor 2 7 ((4, 5, 6) : Vec3))).1.last_accelerometer = none ∧
     (processPacket (processPacket initFusionState
          (.sensor 1 7 ((1, 2, 3) : Vec3))).1
        (.sensor 2 7 ((4, 5, 6) : Vec3))).1.last_gyroscope = none) ∧
    processPacket
        { last_accelerometer := some ((1, 2, 3), 7), last_gyroscope := none,
          previous_key_states := 0, proxy_sensor_was_far := false }
        (.sensor 2 9 ((4, 5, 6) : Vec3)) =
      ({ last_accelerometer := some ((1, 2, 3), 7),
         last_gyroscope := some ((4, 5, 6), 9),
         previous_key_states := 0, proxy_sensor_was_far := false }, []) :=
  ⟨accgyro_fusion_pairing.1 initFusionState (1, 2, 3) (4, 5, 6) 7
      (fun g tg h => by cases h),
   accgyro_fusion_pairing.2.2.1
      { last_accelerometer := some ((1, 2, 3), 7), last_gyroscope := none,
        previous_key_states := 0, proxy_sensor_was_far := false }
      (1, 2, 3) (4, 5, 6) 7 9 rfl (by decide)⟩

/-- Claim C2: a `KeyPress(i)` event fires exactly on rising transitions of
bit `i` of the key bitmask (`keys_pressed & !previous_key_bitmask`), in
ascending bit order within one packet, and `previous_key_states` is
unconditionally overwritten with the new bitmask; key bitmasks from
`MiscPacket` and `CombinedPacket` both feed this logic. -/
theorem key_rising_edge :
    (∀ (st : FusionState) (keys i : Nat),
        GlassesEvent.KeyPress i ∈ (handle_key_press st keys).2 ↔
          i < 8 ∧ keys.testBit i = true ∧
            st.previous_key_states.testBit i = false) ∧
    (∀ (st : FusionState) (keys : Nat),
        (handle_key_press st keys).2.Pairwise fun a b => keyBit a < keyBit b) ∧
    (∀ (st : FusionState) (keys : Nat),
        (handle_key_press st keys).1 =
          { st with previous_key_states := keys }) ∧
    (∀ (masks : List Nat) (st : FusionState) (i : Nat), i < 8 →
        (runKeys st masks).count (GlassesEvent.KeyPress i) =
          specRisingCount i st.previous_key_states masks) ∧
    (∀ (st : FusionState) (k pr : Nat),
        (processPacket st (.misc k pr)).2.filter isKeyPressEvent =
          (handle_key_press st k).2) ∧
    (∀ (st : FusionState) (ts : Nat) (a g m : Vec3) (k pr : Nat),
        (processPacket st (.combined ts a g m k pr)).2.filter isKeyPressEvent =
          (handle_key_press st k).2) :=
  ⟨handle_key_press_mem, handle_key_press_sorted, fun _ _ => rfl,
   runKeys_count, processPacket_misc_keyfilter, processPacket_combined_keyfilter⟩

/-- Witness for C2 at the spec's example: over the bitmask sequence
[0b0001, 0b0001, 0b0011, 0b0000] from the initial state, bit 1 rises
exactly once and `KeyPress 1` is counted exactly once. -/
theorem key_rising_edge_witness :
    (runKeys initFusionState [1, 1, 3, 0]).count (GlassesEvent.KeyPress 1) =
      specRisingCount 1 initFusionState.previous_key_states [1, 1, 3, 0] ∧
    specRisingCount 1 initFusionState.previous_key_states [1, 1, 3, 0] = 1 :=
  ⟨key_rising_edge.2.2.2.1 [1, 1, 3, 0] initFusionState 1 (by decide),
   by decide⟩

/-- Claim C3: a `CombinedPacket` (tag 17) emits exactly one `AccGyro` and
exactly one `Magnetometer` event, both timestamped with the raw frame
timestamp divided by 1000, and leaves the split-packet pending
accelerometer/gyroscope slots untouched whatever they hold. -/
theorem combined_frame_independent (st : FusionState) (ts : Nat)
    (a g m : Vec3) (k pr : Nat) :
    (processPacket st (.combined ts a g m k pr)).1.last_accelerometer =
        st.last_accelerometer ∧
    (processPacket st (.combined ts a g m k pr)).1.last_gyroscope =
        st.last_gyroscope ∧
    (processPacket st (.combined ts a g m k pr)).2.filter isAccGyroEvent =
        [GlassesEvent.AccGyro a g (ts / 1000)] ∧
    (processPacket st (.combined ts a g m k pr)).2.filter isMagnetometerEvent =
        [GlassesEvent.Magnetometer m (ts / 1000)] := by
  refine ⟨rfl, rfl, ?_, ?_⟩ <;>
  · show (([GlassesEvent.AccGyro a g (ts / 1000),
        GlassesEvent.Magnetometer m (ts / 1000)] ++ (handle_key_press st k).2 ++
        (handle_proxy_sensor (handle_key_press st k).1 pr).2).filter _) = _
    rw [List.filter_append, List.filter_append,
      handle_proxy_sensor_filter _ _ _ rfl rfl, List.append_nil,
      handle_key_press_events, filter_map_keyPress _ _ (fun b => rfl),
      List.append_nil]
    rfl

/-- Claim C9: a packet whose leading tag byte is none of 2, 4, 17
produces no events, no error, and leaves every fusion field unchanged. -/
theorem unknown_tag_ignored (st : FusionState) (p : Packet)
    (h2 : p.tag ≠ 2) (h4 : p.tag ≠ 4) (h17 : p.tag ≠ 17) :
    processPacket st p = (st, []) := by
  cases p with
  | misc k pr => exact absurd rfl h2
  | sensor s ts v => exact absurd rfl h4
  | combined ts a g m k pr => exact absurd rfl h17
  | unknown t => rfl

/-- Witness for C9: the spec's example tag 99 is dropped with the state
unchanged. -/
theorem unknown_tag_ignored_witness :
    (Packet.unknown 99).tag ≠ 2 ∧
    processPacket initFusionState (Packet.unknown 99) =
      (initFusionState, []) :=
  ⟨by decide,
   unknown_tag_ignored initFusionState (Packet.unknown 99) (by decide)
     (by decide) (by decide)⟩

/-- Claim C10: the pending accelerometer and gyroscope slots never
simultaneously hold equal-timestamp samples: the invariant holds at
session creation, is preserved by processing any packet, and holds
unconditionally after any tag-4 sensor packet, including ones whose
second tag byte selects no known sensor kind. -/
theorem pending_slots_invariant :
    pendingTimestampsDiffer initFusionState ∧
    (∀ (st : FusionState) (p : Packet), pendingTimestampsDiffer st →
        pendingTimestampsDiffer (processPacket st p).1) ∧
    (∀ (st : FusionState) (sensor_type ts : Nat) (v : Vec3),
        pendingTimestampsDiffer
          (processPacket st (.sensor sensor_type ts v)).1) := by
  refine ⟨?_, ?_, ?_⟩
  · intro a ta g tg ha hg
    cases ha
  · intro st p h
    cases p with
    | misc k pr => exact fun a ta g tg ha hg => h a ta g tg ha hg
    | sensor s ts v => exact pairCheck_differ _
    | combined ts a g m k pr => exact fun a' ta g' tg ha hg => h a' ta g' tg ha hg
    | unknown t => exact h
  · intro st s ts v
    exact pairCheck_differ _

/-- Witness for C10: preservation applied at the initial state and a
key/proximity packet, the invariant discharged there. -/
theorem pending_slots_invariant_witness :
    pendingTimestampsDiffer (processPacket initFusionState (Packet.misc 3 1)).1 :=
  pending_slots_invariant.2.1 initFusionState (Packet.misc 3 1)
    (fun a ta g tg ha hg => by cases ha)

theorem read_event_pop {ε : Type} (reads : List (Except ε Packet))
    (st : FusionState) (ev : GlassesEvent) (q : List GlassesEvent) :
    read_event reads st (ev :: q) = some (Except.ok (ev, st, q, reads)) := by
  cases reads with
  | nil => rfl
  | cons r rs => cases r <;> rfl

/-- Claim C4: `read_event` pops exactly one event per call; a packet that
yields zero events makes it read on instead of returning empty; with no
input left and an empty queue it produces no result (models blocking
forever rather than returning an empty success); a failed transport read
makes it return that error unchanged, and every error it returns came
from the transport reads. -/
theorem read_event_exactly_one :
    (∀ (ε : Type) (reads : List (Except ε Packet)) (st : FusionState)
        (ev : GlassesEvent) (q : List GlassesEvent),
        read_event reads st (ev :: q) = some (Except.ok (ev, st, q, reads))) ∧
    (∀ (ε : Type) (reads : List (Except ε Packet)) (st st' : FusionState)
        (p : Packet), processPacket st p = (st', []) →
        read_event (Except.ok p :: reads) st [] = read_event reads st' []) ∧
    (∀ (ε : Type) (reads : List (Except ε Packet)) (st st' : FusionState)
        (p : Packet) (ev : GlassesEvent) (evs : List GlassesEvent),
        processPacket st p = (st', ev :: evs) →
        read_event (Except.ok p :: reads) st [] =
          some (Except.ok (ev, st', evs, reads))) ∧
    (∀ (ε : Type) (reads : List (Except ε Packet)) (st : FusionState) (e : ε),
        read_event (Except.error e :: reads) st [] = some (Except.error e)) ∧
    (∀ (ε : Type) (st : FusionState),
        read_event ([] : List (Except ε Packet)) st [] = none) ∧
    (∀ (ε : Type) (reads : List (Except ε Packet)) (st : FusionState)
        (q : List GlassesEvent) (e : ε),
        read_event reads st q = some (Except.error e) →
        Except.error e ∈ reads) := by
  refine ⟨fun ε reads st ev q => read_event_pop reads st ev q, ?_, ?_,
    fun ε reads st e => rfl, fun ε st => rfl,
    fun ε reads st q e h => read_event_error_mem reads st q e h⟩
  · intro ε reads st st' p h
    show read_event reads (processPacket st p).1 (processPacket st p).2 = _
    rw [h]
  · intro ε reads st st' p ev evs h
    show read_event reads (processPacket st p).1 (processPacket st p).2 = _
    rw [h]
    exact read_event_pop reads st' ev evs

/-- Witness for C4: a tag-99 packet yields nothing and reading continues;
a magnetometer packet yields its event immediately; a failing read
returns its error, and that error is among the reads. -/
theorem read_event_exactly_one_witness :
    read_event [Except.ok (Packet.unknown 99)] initFusionState [] =
      read_event ([] : List (Except Nat Packet)) initFusionState [] ∧
    read_event [Except.ok (Packet.sensor 3 5 ((1, 1, 1) : Vec3))]
        initFusionState [] =
      some (Except.ok (GlassesEvent.Magnetometer (1, 1, 1) 5,
        initFusionState, [], ([] : List (Except Nat Packet)))) ∧
    read_event ([Except.error 7] : List (Except Nat Packet))
        initFusionState [] = some (Except.error 7) ∧
    Except.error 7 ∈ ([Except.error 7] : List (Except Nat Packet)) :=
  ⟨read_event_exactly_one.2.1 Nat [] initFusionState initFusionState
      (Packet.unknown 99) rfl,
   read_event_exactly_one.2.2.1 Nat [] initFusionState initFusionState
      (Packet.sensor 3 5 (1, 1, 1)) (GlassesEvent.Magnetometer (1, 1, 1) 5) []
      (by simp [processPacket, pairCheck, initFusionState]),
   read_event_exactly_one.2.2.2.1 Nat [] initFusionState 7,
   read_event_exactly_one.2.2.2.2.2 Nat [Except.error 7] initFusionState [] 7
      rfl⟩

/-- Claim C5 (code bug): the brightness get issues its control read with
request code 0x81 — not the 0x82 the in-file protocol table documents —
the same request code as the volume and display-mode gets. -/
theorem get_brightness_request_code :
    get_brightness_read = { request := 0x81, value := 0, index := 0x02 } ∧
    get_brightness_read.request ≠ 0x82 ∧
    get_volume_read.request = 0x81 ∧
    get_raw_display_mode_read.request = 0x81 ∧
    get_display_mode_read.request = 0x81 := by
  refine ⟨rfl, ?_, rfl, rfl, rfl⟩
  decide

/-- Claim C6 counterexample: for `HighRefreshRate` (mode code 3) the
write carries rusb value 3 and index 1, not index 3 and value 1 as the
claim states. -/
theorem set_display_mode_swapped :
    (set_display_mode DisplayMode.HighRefreshRate).map
        (fun w => (w.value, w.index)) = Except.ok ((3 : Nat), (1 : Nat)) ∧
    (set_display_mode DisplayMode.HighRefreshRate).map
        (fun w => (w.value, w.index)) ≠ Except.ok ((1 : Nat), (3 : Nat)) := by
  refine ⟨rfl, fun h => ?_⟩
  rw [show (set_display_mode DisplayMode.HighRefreshRate).map
      (fun w => (w.value, w.index)) = Except.ok ((3 : Nat), (1 : Nat))
    from rfl] at h
  injection h with h1
  injection h1 with h2 h3
  exact absurd h2 (by decide)

/-- Claim C6 (amended): every supported display mode yields a single
control write with request 0x01, rusb value equal to the mode code, rusb
index 0x01, and a 1-byte payload. -/
theorem set_display_mode_writes :
    set_display_mode DisplayMode.SameOnBoth =
      Except.ok { request := 1, value := 0, index := 1, payload := [0] } ∧
    set_display_mode DisplayMode.Stereo =
      Except.ok { request := 1, value := 1, index := 1, payload := [0] } ∧
    set_display_mode DisplayMode.HighRefreshRate =
      Except.ok { request := 1, value := 3, index := 1, payload := [0] } ∧
    set_display_mode DisplayMode.HighRefreshRateSBS =
      Except.ok { request := 1, value := 4, index := 1, payload := [0] } :=
  ⟨rfl, rfl, rfl, rfl⟩

/-- Claim C8: `set_volume` clamps to 0..=10 and transmits the clamped
value times 10; `set_brightness` clamps to 1..=6 and transmits the fixed
table value at the clamped input; in particular volume 15 transmits 100,
brightness 0 transmits 10 and brightness 9 transmits 100. -/
theorem volume_brightness_clamping :
    (∀ v : Nat, (set_volume v).value = min (max v 0) 10 * 10) ∧
    (∀ b : Nat, (set_brightness b).value =
        specBrightnessTable (min (max b 1) 6)) ∧
    (set_volume 15).value = 100 ∧ (set_brightness 0).value = 10 ∧
    (set_brightness 9).value = 100 := by
  refine ⟨fun v => rfl, fun b => ?_, rfl, rfl, rfl⟩
  show (match min (max b 1) 6 with
    | 1 => 10 | 2 => 30 | 3 => 45 | 4 => 60 | 5 => 80 | _ => (100 : Nat)) =
      specBrightnessTable (min (max b 1) 6)
  have h1 : 1 ≤ min (max b 1) 6 := by omega
  have h6 : min (max b 1) 6 ≤ 6 := by omega
  generalize min (max b 1) 6 = c at h1 h6 ⊢
  interval_cases c <;> rfl

/-- Claim C7 counterexample: on the buffer `A` followed by 63 NUL bytes
(valid UTF-8), `convert_byte_array` returns the 64-character decode of
the whole buffer, not the NUL-terminated string `"A"` the claim
describes. -/
theorem identity_string_not_nul_terminated :
    specNulTerminatedString aThenNuls = some "A" ∧
    convert_byte_array (Except.ok aThenNuls) ≠ "A" ∧
    (convert_byte_array (Except.ok aThenNuls)).length = 64 := by
  refine ⟨?_, ?_, ?_⟩ <;> decide

/-- Claim C7 (amended): the identity getters never raise an error: a
failed read yields the placeholder `"Unknown (<error>)"`; a successful
64-byte read is decoded as the UTF-8 string of the entire buffer (NULs
included, no truncation at the first NUL) when the bytes are valid UTF-8,
and otherwise as the `", "`-joined uppercase hex dump; all seven getters
share this conversion. -/
theorem identity_string_conversion :
    (∀ e : String, convert_byte_array (Except.error e) =
        "Unknown (" ++ e ++ ")") ∧
    (∀ (bs cps : List Nat), utf8DecodeCps bs = some cps →
        convert_byte_array (Except.ok bs) = String.mk (cps.map Char.ofNat)) ∧
    (∀ bs : List Nat, utf8DecodeCps bs = none →
        convert_byte_array (Except.ok bs) =
          String.intercalate ", " (bs.map hexByte)) ∧
    (∀ r, hw_version r = convert_byte_array r ∧
      pcba_version r = convert_byte_array r ∧
      optical_id r = convert_byte_array r ∧
      type_id r = convert_byte_array r ∧
      serial_no r = convert_byte_array r ∧
      fw_version r = convert_byte_array r ∧
      seed r = convert_byte_array r) := by
  refine ⟨fun e => rfl, ?_, ?_, fun r => ⟨rfl, rfl, rfl, rfl, rfl, rfl, rfl⟩⟩
  · intro bs cps h
    show (match utf8DecodeCps bs with
      | some cs => String.mk (cs.map Char.ofNat)
      | none => String.intercalate ", " (bs.map hexByte)) = _
    rw [h]
  · intro bs h
    show (match utf8DecodeCps bs with
      | some cs => String.mk (cs.map Char.ofNat)
      | none => String.intercalate ", " (bs.map hexByte)) = _
    rw [h]

/-- Witness for C7: the valid-UTF-8 branch at the bytes of `"Hi"` and the
hex-dump branch at the invalid byte 0xFF. -/
theorem identity_string_conversion_witness :
    utf8DecodeCps [72, 105] = some [72, 105] ∧
    convert_byte_array (Except.ok [72, 105]) =
      String.mk ([72, 105].map Char.ofNat) ∧
    utf8DecodeCps [255] = none ∧
    convert_byte_array (Except.ok [255]) =
      String.intercalate ", " ([255].map hexByte) :=
  ⟨by decide, identity_string_conversion.2.1 [72, 105] [72, 105] (by decide),
   by decide, identity_string_conversion.2.2.1 [255] (by decide)⟩

end Rokid
